import Mathlib

/-!
Verification of the forge-ai collaborative build pipeline.

This file gives a shallow embedding, in Lean, of the control-loop core of
the repository: approval detection and the REVIEW/FIX loop of
`forge/build/duo.py`, the file-block extraction filter, the verification
runner aggregation, the rollback and escalation policies of
`forge/build/pipeline.py`, session-memory failure counting of
`forge/build/memory.py`, the error classifier of `forge/build/errors.py`,
and the resume-state persistence of `forge/build/resume.py`.

Python strings are modelled as `List Char`; machine-level details that the
embedded functions do not touch (subprocess execution, the real file
system, JSON text encoding) are modelled as explicit environments or
abstract syntax, as documented at each definition.
-/

namespace Forge

/-! ### Python string primitives

The embedded code uses Python `str` operations: slicing, `upper`,
substring membership (`in`), `startswith`, `strip`.  Strings are
`List Char`; these helpers mirror the Python semantics (ASCII case
mapping, which is what `Char.toUpper`/`Char.toLower` implement). -/

/-- Does `needle` occur as a prefix of `hay` (exact character equality)?
Mirrors Python `str.startswith`. -/
def startsWithL : List Char → List Char → Bool
  | [], _ => true
  | _ :: _, [] => false
  | a :: n, b :: h => a == b && startsWithL n h

/-- Does `needle` occur as a contiguous substring of `hay`?
Mirrors Python `needle in hay`. -/
def containsSub (hay needle : List Char) : Bool :=
  startsWithL needle hay ||
    match hay with
    | [] => false
    | _ :: t => containsSub t needle

/-- Case-insensitive character equality (both sides mapped through
`Char.toUpper`), used to state the spec-side approval predicate. -/
def charIEq (a b : Char) : Bool := a.toUpper == b.toUpper

/-- Case-insensitive prefix test, character-wise `charIEq`. -/
def ciStartsWith : List Char → List Char → Bool
  | [], _ => true
  | _ :: _, [] => false
  | a :: n, b :: h => charIEq a b && ciStartsWith n h

/-- Case-insensitive substring occurrence. -/
def ciContains (hay needle : List Char) : Bool :=
  ciStartsWith needle hay ||
    match hay with
    | [] => false
    | _ :: t => ciContains t needle

/-- Python whitespace for `str.strip` (space, tab, newline, carriage
return, vertical tab, form feed). -/
def pyIsSpace (c : Char) : Bool :=
  c == ' ' || c == '\t' || c == '\n' || c == '\r' ||
  c == Char.ofNat 11 || c == Char.ofNat 12

/-- Python `str.strip()`: remove whitespace from both ends. -/
def pyStrip (s : List Char) : List Char :=
  ((s.dropWhile pyIsSpace).reverse.dropWhile pyIsSpace).reverse

/-- Python `str.rstrip(chr)` for a single strip character. -/
def pyRStripChar (s : List Char) (c : Char) : List Char :=
  (s.reverse.dropWhile (fun d => d == c)).reverse

/-! ### Approval detection (`DuoBuildPipeline._is_approved`, duo.py 786-792)

```python
if not review_output:
    return False
first_100 = review_output[:100].upper()
return "APPROVED" in first_100
```
-/

/-- Embedding of `DuoBuildPipeline._is_approved`. -/
def is_approved (review_output : List Char) : Bool :=
  if review_output.isEmpty then false
  else containsSub ((review_output.take 100).map Char.toUpper) ("APPROVED".toList)

/-- Spec-side predicate: the case-insensitive substring "APPROVED" occurs
within the first 100 characters of the text. -/
def approvedSpec (review_output : List Char) : Bool :=
  ciContains (review_output.take 100) ("APPROVED".toList)

/-- Concatenate a list of strings with a separator, mirroring Python
`sep.join(xs)`. -/
def joinSep (sep : List Char) (xs : List (List Char)) : List Char :=
  (xs.intersperse sep).flatten

/-- Exact suffix test, mirroring Python `str.endswith`. -/
def endsWithL (needle hay : List Char) : Bool :=
  startsWithL needle.reverse hay.reverse

/-- Map `Char.toLower` over a string, mirroring Python `str.lower`
(ASCII range). -/
def pyLower (s : List Char) : List Char := s.map Char.toLower

/-! ### Session memory (`BuildMemory`, memory.py)

Only the fields consulted by `consecutive_failures` /
`should_escalate` are carried; `_records` is the list of
`IterationRecord`s in insertion (append) order. -/

/-- Embedding of `IterationRecord` (memory.py 13-26), restricted to the
fields the counting logic reads. -/
structure IterationRecord where
  iteration : Nat
  agent : List Char
  test_passed : Bool
deriving DecidableEq

/-- Embedding of `BuildMemory.consecutive_failures` (memory.py 60-68):
walk the record list backward from the end, counting until the first
passing record (or the start). -/
def consecutive_failures (records : List IterationRecord) : Nat :=
  (records.reverse.takeWhile (fun r => !r.test_passed)).length

/-- Default for the `max_failures` parameter of `should_escalate`. -/
def defaultMaxFailures : Nat := 3

/-- Embedding of `BuildMemory.should_escalate` (memory.py 154-156). -/
def should_escalate (records : List IterationRecord) (max_failures : Nat) :
    Bool :=
  decide (max_failures ≤ consecutive_failures records)

/-! ### Escalation policy (`BuildPipeline`, pipeline.py 68-76, 346-363) -/

/-- Embedding of `BuildPipeline.ESCALATION_TIERS` (weakest to strongest). -/
def ESCALATION_TIERS : List String :=
  ["claude-haiku", "antigravity-flash", "gemini", "claude-sonnet",
   "antigravity-pro", "claude-opus"]

/-- Embedding of `BuildPipeline._try_escalate` (pipeline.py 346-363).
Inputs: the available adapter names and the current agent.  Returns the
(next agent, escalated?) pair; Python mutates `self._current_agent` and
returns the boolean.  `current_tier` is the first index of the current
agent in the tier list, `-1` when absent, then the first available agent
in `ESCALATION_TIERS[current_tier + 1:]` is taken. -/
def tryEscalate (available : List String) (current : String) :
    String × Bool :=
  let afterCurrent : Nat :=
    match ESCALATION_TIERS.findIdx? (fun t => t == current) with
    | some i => i + 1
    | none => 0
  match (ESCALATION_TIERS.drop afterCurrent).find?
      (fun t => available.contains t) with
  | some t => (t, true)
  | none => (current, false)

/-- Position of an agent in the tier list (list length when absent). -/
def tierIdx (a : String) : Nat :=
  ESCALATION_TIERS.findIdx (fun t => t == a)

/-! ### Rollback trigger (`BuildPipeline._should_rollback`,
pipeline.py 365-375, and its call site in `_run_iteration` 244-250)

`steps` is `self.steps`, the list of steps of completed iterations (the
current step is appended by `run` only after `_run_iteration` returns, so
`steps[-1]` is the immediately preceding iteration). -/

/-- Embedding of `BuildStep`, restricted to the fields the rollback logic
reads and writes. -/
structure BuildStepRec where
  test_success : Bool
  rolled_back : Bool
deriving DecidableEq

/-- Embedding of `BuildPipeline._should_rollback` (pipeline.py 365-375). -/
def should_rollback (steps : List BuildStepRec) (current : BuildStepRec) :
    Bool :=
  if steps.length < 2 then false
  else
    match steps.getLast? with
    | some prev => prev.test_success && !current.test_success
    | none => false

/-- Embedding of the rollback mark at the `_run_iteration` call site
(pipeline.py 244-250): when verification failed and `_should_rollback`
holds, the step is marked `rolled_back`. -/
def markRollback (steps : List BuildStepRec) (step : BuildStepRec) :
    BuildStepRec :=
  if step.test_success then step
  else if should_rollback steps step then
    { step with rolled_back := true }
  else step

/-! ### Error classifier (`ErrorClassifier`, errors.py)

The pattern lists of errors.py 50-107 are Python regexes searched with
`re.search(pattern, text, re.IGNORECASE)`.  The regex subset they use is
literal characters, `.*`, `\d+`, the character class matching a quote
character, and escaped literals; `RTok` lists encode exactly that subset
and `research` implements `re.search` semantics for it (`.` does not
match a newline; case-insensitive comparison on letters). -/

/-- One token of the regex subset used by the classifier patterns. -/
inductive RTok where
  | lit (c : Char)
  | dotStar
  | digitPlus
  | cls (cs : List Char)
deriving DecidableEq

/-- The suffixes reachable from `ds` by `.*`: drop zero or more leading
characters, none of which may be a newline (Python `.` excludes `\n`
without `DOTALL`). -/
def starSkips (ds : List Char) : List (List Char) :=
  ds ::
    match ds with
    | [] => []
    | d :: t => if d == '\n' then [] else starSkips t

/-- The suffixes reachable from `ds` by `\d+`: drop one or more leading
decimal digits. -/
def digitSkips : List Char → List (List Char)
  | [] => []
  | d :: t => if d.isDigit then t :: digitSkips t else []

/-- Does the token list match some prefix of the character list?
Case-insensitive on literals (IGNORECASE), `.` excludes newline, `\d+` is
one or more decimal digits; the skip-candidate lists realise the regex
engine's backtracking. -/
def matchesAt : List RTok → List Char → Bool
  | [], _ => true
  | .lit c :: ts, ds =>
      match ds with
      | [] => false
      | d :: ds2 => (d.toLower == c.toLower) && matchesAt ts ds2
  | .cls cs :: ts, ds =>
      match ds with
      | [] => false
      | d :: ds2 => cs.contains d && matchesAt ts ds2
  | .dotStar :: ts, ds => (starSkips ds).any (fun ds2 => matchesAt ts ds2)
  | .digitPlus :: ts, ds => (digitSkips ds).any (fun ds2 => matchesAt ts ds2)

/-- `re.search`: the pattern matches starting at some position. -/
def research (p : List RTok) : List Char → Bool
  | [] => matchesAt p []
  | d :: t => matchesAt p (d :: t) || research p t

/-- Build a token list of plain literals from a string. -/
def lits (s : String) : List RTok := s.toList.map RTok.lit

/-- The character class of `['\x22]`-style quote alternatives:
apostrophe (39) or double quote (34). -/
def quoteClass : RTok := RTok.cls [Char.ofNat 39, Char.ofNat 34]

/-- Embedding of `_SYNTAX_PATTERNS` (errors.py 50-58). -/
def SYNTAX_PATTERNS : List (List RTok) :=
  [lits "SyntaxError",
   lits "IndentationError",
   lits "unexpected EOF",
   lits "invalid syntax",
   lits "expected" ++ [RTok.dotStar, quoteClass],
   lits "unterminated string",
   lits "TabError"]

/-- Embedding of `_DEPENDENCY_PATTERNS` (errors.py 60-72). -/
def DEPENDENCY_PATTERNS : List (List RTok) :=
  [lits "ModuleNotFoundError",
   lits "ImportError",
   lits "No module named",
   lits "Could not find a version",
   lits "pip install",
   lits "npm ERR!" ++ [RTok.dotStar] ++ lits "not found",
   lits "package" ++ [RTok.dotStar] ++ lits "not found",
   lits "Cannot find module",
   lits "Module not found",
   lits "error[E0432]",
   lits "cannot find package"]

/-- Embedding of `_LOGIC_PATTERNS` (errors.py 74-83). -/
def LOGIC_PATTERNS : List (List RTok) :=
  [lits "AssertionError",
   lits "FAILED" ++ [RTok.dotStar] ++ lits "assert",
   lits "Expected" ++ [RTok.dotStar] ++ lits "but got",
   lits "Test failed",
   lits "test" ++ [RTok.dotStar] ++ lits "FAILED",
   lits "FAIL:",
   lits "failures=" ++ [RTok.digitPlus],
   lits "errors=" ++ [RTok.digitPlus]]

/-- Embedding of `_RUNTIME_PATTERNS` (errors.py 85-99). -/
def RUNTIME_PATTERNS : List (List RTok) :=
  [lits "TypeError",
   lits "ValueError",
   lits "KeyError",
   lits "IndexError",
   lits "AttributeError",
   lits "RuntimeError",
   lits "ZeroDivisionError",
   lits "FileNotFoundError",
   lits "PermissionError",
   lits "OSError",
   lits "Traceback (most recent call last)",
   lits "panic:",
   lits "Segmentation fault"]

/-- Embedding of `_CONFIG_PATTERNS` (errors.py 101-107). -/
def CONFIG_PATTERNS : List (List RTok) :=
  [lits "FileNotFoundError" ++ [RTok.dotStar] ++ lits "config",
   lits "No such file or directory",
   lits "environment variable" ++ [RTok.dotStar] ++ lits "not set",
   lits "missing" ++ [RTok.dotStar] ++ lits "configuration",
   lits "ENOENT"]

/-- Embedding of `ErrorClassifier._matches_any` (errors.py 205-210). -/
def matchesAny (text : List Char) (patterns : List (List RTok)) : Bool :=
  patterns.any (fun p => research p text)

/-- Embedding of `ErrorCategory` (errors.py 15-23). -/
inductive ErrorCategory where
  | SYNTAX | DEPENDENCY | LOGIC | ARCHITECTURE | RUNTIME
  | CONFIGURATION | UNKNOWN
deriving DecidableEq

/-- Embedding of `ErrorSeverity` (errors.py 26-31). -/
inductive ErrorSeverity where
  | LOW | MEDIUM | HIGH | CRITICAL
deriving DecidableEq

/-- Embedding of `ClassifiedError` (errors.py 34-46), restricted to the
routing fields (category and severity). -/
structure ClassifiedErrorM where
  category : ErrorCategory
  severity : ErrorSeverity
deriving DecidableEq

/-- Embedding of `ErrorClassifier.classify` (errors.py 113-172): nested
pattern checks in source order, first match winning, `UNKNOWN`/`MEDIUM`
when nothing matches. -/
def classify (error_output : List Char) : ClassifiedErrorM :=
  if matchesAny error_output SYNTAX_PATTERNS then
    ⟨.SYNTAX, .LOW⟩
  else if matchesAny error_output DEPENDENCY_PATTERNS then
    ⟨.DEPENDENCY, .LOW⟩
  else if matchesAny error_output CONFIG_PATTERNS then
    ⟨.CONFIGURATION, .MEDIUM⟩
  else if matchesAny error_output LOGIC_PATTERNS then
    ⟨.LOGIC, .MEDIUM⟩
  else if matchesAny error_output RUNTIME_PATTERNS then
    ⟨.RUNTIME, .MEDIUM⟩
  else
    ⟨.UNKNOWN, .MEDIUM⟩

/-- Spec-side rendering of the claimed priority order: an ordered table of
(pattern list, category, severity), first matching row winning. -/
def priorityTable :
    List (List (List RTok) × ErrorCategory × ErrorSeverity) :=
  [(SYNTAX_PATTERNS, .SYNTAX, .LOW),
   (DEPENDENCY_PATTERNS, .DEPENDENCY, .LOW),
   (CONFIG_PATTERNS, .CONFIGURATION, .MEDIUM),
   (LOGIC_PATTERNS, .LOGIC, .MEDIUM),
   (RUNTIME_PATTERNS, .RUNTIME, .MEDIUM)]

/-- Spec-side classifier: first matching row of the priority table, else
UNKNOWN at MEDIUM severity. -/
def classifyFirstMatch (error_output : List Char) : ClassifiedErrorM :=
  match priorityTable.find? (fun row => matchesAny error_output row.1) with
  | some row => ⟨row.2.1, row.2.2⟩
  | none => ⟨.UNKNOWN, .MEDIUM⟩

/-! ### File-block extraction filter
(`DuoBuildPipeline._extract_files_from_output`, duo.py 713-766)

The three regex strategies of duo.py 737-749 each produce a list of
`(filepath, content)` capture pairs; the write loop of duo.py 751-764 is
common to all three and is embedded here over an arbitrary such list
(covering every delimiter format).  `writeFiles` returns the
(path, content) pairs actually written to disk, in order. -/

/-- Embedding of the write loop of `_extract_files_from_output`
(duo.py 751-764): strip the path, normalise the content's trailing
newlines, skip any path containing `..` or starting with `/`, skip bare
tokens without a path separator and without a dot, write the rest. -/
def writeFiles (ms : List (List Char × List Char)) :
    List (List Char × List Char) :=
  match ms with
  | [] => []
  | (fp0, content0) :: rest =>
    let fp := pyStrip fp0
    let content := pyRStripChar content0 '\n' ++ ['\n']
    if containsSub fp ("..".toList) || startsWithL ("/".toList) fp then
      writeFiles rest
    else if !fp.contains '/' && !fp.contains '.' then
      writeFiles rest
    else
      (fp, content) :: writeFiles rest

/-- Spec-side path-safety predicate: no `..`, no leading `/`, and either a
path separator or an extension dot. -/
def safePath (p : List Char) : Bool :=
  !containsSub p ("..".toList) && !startsWithL ("/".toList) p &&
    (p.contains '/' || p.contains '.')

/-! ### Duo pipeline control loop (`DuoBuildPipeline.run`, duo.py 113-203)

The agent backends, the verification subprocesses and the file system are
abstracted into a `DuoEnv` oracle: for each dispatch the oracle supplies
the success flag and output text the adapter would return (`run` consults
nothing else about them).  `verifyOk i`/`verifyOut i` describe the
`i`-th `_verify` call (call 0 is the initial verify of duo.py 146);
`reviewOut i` is the reviewer text of iteration `i`.  `projectFiles` is
`_list_project_files()` at loop exit. -/

/-- Embedding of the phase tags (duo.py 43-47). -/
inductive Phase where
  | PLAN | CODE | VERIFY | REVIEW | FIX
deriving DecidableEq

/-- Embedding of `DuoRound` (duo.py 60-71), restricted to the fields the
control flow reads (`round_number`, `phase`, `success`, `output`). -/
structure DuoRoundM where
  round_number : Nat
  phase : Phase
  success : Bool
  output : List Char
deriving DecidableEq

/-- Embedding of `DuoResult` (duo.py 74-81).  Defaults: `approved =
False`, `total_rounds = 0`, `files_created = []`. -/
structure DuoResultM where
  rounds : List DuoRoundM
  approved : Bool
  total_rounds : Nat
  files_created : List (List Char)
deriving DecidableEq

/-- Oracle for the agent dispatches and verification of one `run`. -/
structure DuoEnv where
  planOk : Bool
  planOut : List Char
  codeOk : Bool
  codeOut : List Char
  reviewOk : Nat → Bool
  reviewOut : Nat → List Char
  fixOk : Nat → Bool
  fixOut : Nat → List Char
  verifyOk : Nat → Bool
  verifyOut : Nat → List Char
  projectFiles : List (List Char)

/-- The REVIEW/FIX/VERIFY loop of duo.py 151-193.  `fuel` is the number of
remaining iterations of `range(1, max_rounds + 1)`, `iter` the current
iteration number, `acc` the rounds recorded so far.  A round's number is
`len(self.rounds) + 1` at creation; since REVIEW, FIX and VERIFY are
created after 0, 1 and 2 appends within the iteration, these are
`acc.length + 1`, `+ 2` and `+ 3`.  Returns the final round list and the
`approved` flag. -/
def duoLoop (env : DuoEnv) : Nat → Nat → List DuoRoundM →
    List DuoRoundM × Bool
  | 0, _, acc => (acc, false)
  | fuel + 1, iter, acc =>
    let review : DuoRoundM :=
      ⟨acc.length + 1, .REVIEW, env.reviewOk iter, env.reviewOut iter⟩
    if is_approved (env.reviewOut iter) then (acc ++ [review], true)
    else
      let fixr : DuoRoundM :=
        ⟨acc.length + 2, .FIX, env.fixOk iter, env.fixOut iter⟩
      let ver : DuoRoundM :=
        ⟨acc.length + 3, .VERIFY, env.verifyOk iter, env.verifyOut iter⟩
      duoLoop env fuel (iter + 1) (acc ++ [review, fixr, ver])

/-- Embedding of `DuoBuildPipeline.run` (duo.py 113-203).  PLAN failure
and CODE failure return the partially-filled result immediately (duo.py
128-131, 139-142), leaving `total_rounds` and `files_created` at their
dataclass defaults; otherwise the loop runs and the result is finalised
(duo.py 195-197). -/
def duoRun (env : DuoEnv) (max_rounds : Nat) : DuoResultM :=
  let plan : DuoRoundM := ⟨1, .PLAN, env.planOk, env.planOut⟩
  if !env.planOk then
    { rounds := [plan], approved := false, total_rounds := 0,
      files_created := [] }
  else
    let code : DuoRoundM := ⟨2, .CODE, env.codeOk, env.codeOut⟩
    if !env.codeOk then
      { rounds := [plan, code], approved := false, total_rounds := 0,
        files_created := [] }
    else
      let ver0 : DuoRoundM := ⟨3, .VERIFY, env.verifyOk 0, env.verifyOut 0⟩
      let lp := duoLoop env max_rounds 1 [plan, code, ver0]
      { rounds := lp.1, approved := lp.2, total_rounds := lp.1.length,
        files_created := env.projectFiles }

/-- The phase tags of a result's round list. -/
def phasesOf (r : DuoResultM) : List Phase := r.rounds.map (·.phase)

/-- Shape of the loop-generated phase suffix with `n` iterations of fuel:
either the fuel is exhausted, or a REVIEW that was approved ends the
list, or a full REVIEW/FIX/VERIFY cycle precedes a shape with one less
fuel.  This renders "repeats REVIEW (and, when the review is not
approved, FIX then VERIFY) at most `max_rounds` times". -/
inductive LoopShape : Nat → List Phase → Prop where
  | exhausted : LoopShape 0 []
  | approvedStop (n : Nat) : LoopShape (n + 1) [.REVIEW]
  | cycle (n : Nat) (t : List Phase) :
      LoopShape n t → LoopShape (n + 1) (.REVIEW :: .FIX :: .VERIFY :: t)

/-! ### Structural validation (`validate_project`, validate.py 59-147)

The file system is abstracted as the relative paths (with sizes) that
`wd.rglob("*")` would list, plus the existence flag of the working
directory itself.  Directory entries are omitted: `validate_project` only
inspects files. -/

/-- Embedding of `Severity` (validate.py 15-18). -/
inductive VSeverity where
  | CRITICAL | WARNING | INFO
deriving DecidableEq

/-- Embedding of `ValidationIssue` (validate.py 21-25). -/
structure ValidationIssue where
  severity : VSeverity
  message : List Char
  file : Option (List Char)
deriving DecidableEq

/-- Embedding of `ValidationResult` (validate.py 28-56). -/
structure ValidationResult where
  issues : List ValidationIssue
deriving DecidableEq

/-- Embedding of `ValidationResult.passed`. -/
def vPassed (r : ValidationResult) : Bool :=
  !(r.issues.any (fun i => i.severity == .CRITICAL))

/-- Embedding of `ValidationResult.critical_count`. -/
def vCriticalCount (r : ValidationResult) : Nat :=
  (r.issues.filter (fun i => i.severity == .CRITICAL)).length

/-- Embedding of `ValidationResult.warning_count`. -/
def vWarningCount (r : ValidationResult) : Nat :=
  (r.issues.filter (fun i => i.severity == .WARNING)).length

/-- One file of the abstracted project directory: relative path and size
in bytes. -/
structure FSFile where
  path : List Char
  size : Nat
deriving DecidableEq

/-- Abstracted working directory: existence flag plus recursive file
listing (relative paths, as `wd.rglob("*")` enumerates them). -/
structure FS where
  wdExists : Bool
  files : List FSFile
deriving DecidableEq

/-- Path components, mirroring `rel.parts` for a relative path. -/
def pathParts (p : List Char) : List (List Char) := p.splitOn '/'

/-- The skip set of validate.py 80-81. -/
def skipDirs : List (List Char) :=
  [".git", "__pycache__", "node_modules", ".venv", "venv",
   ".tox", ".mypy_cache", ".pytest_cache"].map String.toList

/-- Is a path component skipped (in the skip set or starting with a
dot)? -/
def partSkipped (part : List Char) : Bool :=
  skipDirs.contains part ||
    (match part with
     | [] => false
     | c :: _ => c == '.')

/-- The filtered `all_files` listing of validate.py 82-87. -/
def allFilesOf (fs : FS) : List (List Char) :=
  (fs.files.filter
    (fun f => !(pathParts f.path).any partSkipped)).map (·.path)

/-- Does a file with exactly this relative path exist (models
`(wd / name).exists()` against the listing)? -/
def fileExistsAt (fs : FS) (name : List Char) : Bool :=
  fs.files.any (fun f => f.path == name)

/-- Size of the file at a path (models `.stat().st_size`; 0 if absent). -/
def fileSizeAt (fs : FS) (name : List Char) : Nat :=
  match fs.files.find? (fun f => f.path == name) with
  | some f => f.size
  | none => 0

/-- Embedding of `pathlib`'s `Path(f).suffix`: the extension of the last
component, empty unless the last dot is strictly inside the name. -/
def pySuffix (p : List Char) : List Char :=
  let name := match (pathParts p).getLast? with
    | some n => n
    | none => []
  match name.reverse.findIdx? (fun c => c == '.') with
  | none => []
  | some j =>
    let i := name.length - 1 - j
    if 0 < i && i < name.length - 1 then name.drop i else []

/-- The manifest names of validate.py 96-97. -/
def manifestNames : List (List Char) :=
  ["pyproject.toml", "setup.py", "setup.cfg", "package.json",
   "Cargo.toml", "go.mod", "requirements.txt"].map String.toList

/-- The source-file extensions of validate.py 118. -/
def sourceExts : List (List Char) :=
  [".py", ".js", ".ts", ".go", ".rs", ".java", ".rb", ".php"].map
    String.toList

/-- Embedding of `validate_project` (validate.py 59-147). -/
def validate_project (fs : FS) : ValidationResult :=
  if !fs.wdExists then
    ⟨[⟨.CRITICAL, "Working directory does not exist".toList, none⟩]⟩
  else
    let all_files := allFilesOf fs
    if all_files.isEmpty then
      ⟨[⟨.CRITICAL, "No files found in project directory".toList, none⟩]⟩
    else
      let manifestIssues :=
        if manifestNames.any (fun m => fileExistsAt fs m) then []
        else
          [⟨VSeverity.CRITICAL,
            ("No package manifest (pyproject.toml, package.json, " ++
             "requirements.txt, etc.)").toList, none⟩]
      let readmeIssues :=
        if !fileExistsAt fs ("README.md".toList) then
          [⟨VSeverity.CRITICAL, "README.md is missing".toList,
            some ("README.md".toList)⟩]
        else if fileSizeAt fs ("README.md".toList) < 50 then
          [⟨VSeverity.WARNING,
            "README.md exists but is too short (< 50 bytes)".toList,
            some ("README.md".toList)⟩]
        else []
      let source_files :=
        all_files.filter (fun f => sourceExts.contains (pySuffix f))
      let sourceIssues :=
        if source_files.isEmpty then
          [⟨VSeverity.CRITICAL, "No source code files found".toList, none⟩]
        else []
      let test_files :=
        all_files.filter (fun f =>
          containsSub (pyLower f) ("test".toList) &&
            sourceExts.contains (pySuffix f))
      let testIssues :=
        if test_files.isEmpty then
          [⟨VSeverity.WARNING,
            "No test files found (files containing \x27test\x27)".toList,
            none⟩]
        else []
      let emptyIssues :=
        source_files.filterMap (fun f =>
          if fileSizeAt fs f == 0 && !endsWithL ("__init__.py".toList) f
          then some ⟨VSeverity.WARNING, "File is empty".toList, some f⟩
          else none)
      let gitignoreIssues :=
        if !fileExistsAt fs (".gitignore".toList) then
          [⟨VSeverity.INFO, ".gitignore is missing".toList, none⟩]
        else []
      ⟨manifestIssues ++ readmeIssues ++ sourceIssues ++ testIssues ++
        emptyIssues ++ gitignoreIssues⟩

/-- The `.value` string of a `Severity` member. -/
def severityValue : VSeverity → List Char
  | .CRITICAL => "CRITICAL".toList
  | .WARNING => "WARNING".toList
  | .INFO => "INFO".toList

/-- Embedding of `ValidationResult.to_prompt` (validate.py 44-56).  The
all-passed checkmark glyph of the source is transcribed as a plain
checkmark. -/
def validationToPrompt (r : ValidationResult) : List Char :=
  if r.issues.isEmpty then "✅ All validation checks passed.".toList
  else
    joinSep ['\n']
      (("VALIDATION: ".toList ++ (toString (vCriticalCount r)).toList ++
        " critical, ".toList ++ (toString (vWarningCount r)).toList ++
        " warnings".toList) ::
        r.issues.map (fun i =>
          match i.file with
          | some f =>
            "- [".toList ++ severityValue i.severity ++ "] ".toList ++
              f ++ ": ".toList ++ i.message
          | none =>
            "- [".toList ++ severityValue i.severity ++ "] ".toList ++
              i.message))

/-! ### Verification runner (`DuoBuildPipeline._verify`, duo.py 366-426)

Subprocess execution is abstracted: the environment lists the detected
verification commands (`suite.all_commands`; `has_commands` is their
non-emptiness) and gives each command's outcome — normal completion with
an exit code and captured output, a timeout, or an execution exception. -/

/-- Outcome of running one verification command. -/
inductive CmdOutcome where
  | completed (exitCode : Int) (stdout stderr : List Char)
  | timedOut
  | execError (msg : List Char)
deriving DecidableEq

/-- Environment of one `_verify` call: the detected commands, their
outcomes, and the abstracted working directory for the validation gate. -/
structure VerifyEnv where
  commands : List (List Char)
  run : List Char → CmdOutcome
  fs : FS

/-- The combined stdout/stderr text of a completed command
(duo.py 383-385). -/
def combinedOutput (stdout stderr : List Char) : List Char :=
  pyStrip (pyStrip stdout ++ '\n' :: pyStrip stderr)

/-- The `errors` entry a command contributes (duo.py 387-399): `none` for
a zero exit code, otherwise the formatted block with the command line,
exit code and captured output. -/
def cmdErrorEntry (cmd : List Char) (o : CmdOutcome) : Option (List Char) :=
  match o with
  | .completed code stdout stderr =>
    if code == 0 then none
    else
      some ("$ ".toList ++ cmd ++ "\nExit code: ".toList ++
        (toString code).toList ++ '\n' :: combinedOutput stdout stderr)
  | .timedOut => some ("$ ".toList ++ cmd ++ "\nTIMEOUT after 60s".toList)
  | .execError msg => some ("$ ".toList ++ cmd ++ "\nERROR: ".toList ++ msg)

/-- The `output_parts` entries a command contributes (duo.py 387-399). -/
def cmdOutputParts (cmd : List Char) (o : CmdOutcome) :
    List (List Char) :=
  match o with
  | .completed code stdout stderr =>
    let combined := combinedOutput stdout stderr
    if code == 0 then
      ("✅ ".toList ++ cmd ++ " → OK".toList) ::
        (if combined.isEmpty then []
         else ["   ".toList ++ combined.take 200])
    else
      ["❌ ".toList ++ cmd ++ " → FAILED\n".toList ++ combined.take 500]
  | .timedOut => ["⏰ ".toList ++ cmd ++ " → TIMEOUT".toList]
  | .execError msg => ["❌ ".toList ++ cmd ++ " → ERROR: ".toList ++ msg]

/-- The `errors` entries contributed by the validation gate
(duo.py 402-408): the CRITICAL findings, prefixed `VALIDATION: `, with
the file name appended when present. -/
def validationEntries (v : ValidationResult) : List (List Char) :=
  if vPassed v then []
  else
    v.issues.filterMap (fun i =>
      if i.severity == VSeverity.CRITICAL then
        some ("VALIDATION: ".toList ++ i.message ++
          (match i.file with
           | some f => " (".toList ++ f ++ [')']
           | none => []))
      else none)

/-- Result of `_verify` relevant to the specification: the success flag,
the error entries, the joined error text, and the display parts. -/
structure VerifyOutcome where
  success : Bool
  errors : List (List Char)
  error_text : List Char
  output_parts : List (List Char)
deriving DecidableEq

/-- The informational message of duo.py 375. -/
def noCommandsMsg : List Char :=
  "No verification commands detected for this project type.".toList

/-- Embedding of `DuoBuildPipeline._verify` (duo.py 366-426), minus the
returned `DuoRound` envelope: errors accumulate per command, the
validation gate appends its report and its CRITICAL findings, success
is the emptiness of `errors`, and a status line is prepended to the
display parts. -/
def verifyRun (env : VerifyEnv) : VerifyOutcome :=
  let errors0 :=
    if env.commands.isEmpty then []
    else env.commands.filterMap (fun c => cmdErrorEntry c (env.run c))
  let parts0 :=
    if env.commands.isEmpty then [noCommandsMsg]
    else (env.commands.map (fun c => cmdOutputParts c (env.run c))).flatten
  let validation := validate_project env.fs
  let parts1 := parts0 ++
    (if vPassed validation then []
     else ['\n' :: validationToPrompt validation])
  let errors := errors0 ++ validationEntries validation
  let error_text := if errors.isEmpty then [] else joinSep "\n\n".toList errors
  let success := errors.isEmpty
  let statusLine :=
    if success then "🟢 All checks passed".toList
    else "🔴 ".toList ++ (toString errors.length).toList ++
      " check(s) failed".toList
  ⟨success, errors, error_text, statusLine :: parts1⟩

/-- Does a command's outcome count as a zero exit (the claim's "exits
with code zero")? -/
def exitsZero (o : CmdOutcome) : Bool :=
  match o with
  | .completed code _ _ => code == 0
  | _ => false

/-! ### Resume state (`save_state` / `load_state`, resume.py 18-61)

The JSON layer is abstracted at the syntax-tree level: the state file
either holds a parsed JSON value or text that is not valid JSON
(`corrupt`, on which `json.loads` raises `JSONDecodeError`).  Python
exceptions surface as the `Except` error case; `load_state` catching
`JSONDecodeError` is the `corrupt` branch returning `none`. -/

/-- JSON values (object fields in insertion order; `json.loads` produces
unique keys). -/
inductive JVal where
  | jnull
  | jbool (b : Bool)
  | jnum (n : Int)
  | jstr (s : String)
  | jarr (xs : List JVal)
  | jobj (fields : List (String × JVal))

/-- Contents of the state file on disk. -/
inductive JFile where
  | parsed (v : JVal)
  | corrupt

/-- Python `dict.get` on an object's field list. -/
def jget (fields : List (String × JVal)) (k : String) : Option JVal :=
  (fields.find? (fun p => p.1 == k)).map (·.2)

/-- Embedding of `save_state` (resume.py 18-43): the file afterwards holds
the serialised state object with these seven keys. -/
def save_state (objective planner coder last_phase plan_output : String)
    (rounds : List JVal) : JFile :=
  .parsed (.jobj
    [("version", .jnum 1),
     ("objective", .jstr objective),
     ("planner", .jstr planner),
     ("coder", .jstr coder),
     ("last_phase", .jstr last_phase),
     ("plan_output", .jstr plan_output),
     ("rounds", .jarr rounds)])

/-- Python `state.get("version") != 1` is false exactly on the int 1 (or
`True`, which Python compares equal to 1). -/
def versionIsOne : Option JVal → Bool
  | some (.jnum 1) => true
  | some (.jbool true) => true
  | _ => false

/-- Embedding of `load_state` (resume.py 46-61).  `none` as input is a
missing state file; a `corrupt` file raises `JSONDecodeError`, which is
caught and yields `None`; a parsed non-object would raise
`AttributeError` on `.get` (not caught in the source), modelled as the
`Except.error` case. -/
def load_state (file : Option JFile) : Except String (Option JVal) :=
  match file with
  | none => .ok none
  | some .corrupt => .ok none
  | some (.parsed (.jobj fields)) =>
    if versionIsOne (jget fields "version") then .ok (some (.jobj fields))
    else .ok none
  | some (.parsed _) => .error "AttributeError"

/-! ### Concrete scenario environments (used by witness instantiations) -/

/-- A run whose reviewer replies "APPROVED" on every review. -/
def envApproved : DuoEnv where
  planOk := true
  planOut := "plan".toList
  codeOk := true
  codeOut := "code".toList
  reviewOk := fun _ => true
  reviewOut := fun _ => "APPROVED\nGreat work".toList
  fixOk := fun _ => true
  fixOut := fun _ => []
  verifyOk := fun _ => true
  verifyOut := fun _ => []
  projectFiles := ["README.md".toList]

/-- A run whose PLAN dispatch fails. -/
def envPlanFail : DuoEnv where
  planOk := false
  planOut := "agent unavailable".toList
  codeOk := true
  codeOut := []
  reviewOk := fun _ => true
  reviewOut := fun _ => "APPROVED".toList
  fixOk := fun _ => true
  fixOut := fun _ => []
  verifyOk := fun _ => true
  verifyOut := fun _ => []
  projectFiles := ["README.md".toList]

/-- An existing but empty working directory. -/
def fsEmptyDir : FS where
  wdExists := true
  files := []

/-- A `_verify` call against an empty directory with no detected
verification commands: no command runs (so every executed command
vacuously exits zero), yet the validation gate emits a CRITICAL
finding. -/
def envNoCmds : VerifyEnv where
  commands := []
  run := fun _ => .timedOut
  fs := fsEmptyDir

/-- A structurally complete project directory (no CRITICAL findings). -/
def fsGoodProject : FS where
  wdExists := true
  files :=
    [⟨"pyproject.toml".toList, 120⟩,
     ⟨"README.md".toList, 400⟩,
     ⟨"main.py".toList, 50⟩,
     ⟨"test_main.py".toList, 80⟩,
     ⟨".gitignore".toList, 10⟩]

/-- A `_verify` call with one command that exits zero against the good
project. -/
def envGood : VerifyEnv where
  commands := ["python3 -m pytest".toList]
  run := fun _ => .completed 0 "1 passed".toList []
  fs := fsGoodProject

theorem startsWithL_map_toUpper (n h : List Char)
    (hn : ∀ c ∈ n, c.toUpper = c) :
    startsWithL n (h.map Char.toUpper) = ciStartsWith n h := by
  induction n generalizing h with
  | nil => cases h <;> rfl
  | cons a n ih =>
    cases h with
    | nil => rfl
    | cons b h =>
      have ha : a.toUpper = a := hn a (by simp)
      have hrest : ∀ c ∈ n, c.toUpper = c := fun c hc => hn c (by simp [hc])
      simp only [List.map_cons, startsWithL, ciStartsWith, charIEq, ha,
        ih h hrest]

theorem containsSub_map_toUpper (h n : List Char)
    (hn : ∀ c ∈ n, c.toUpper = c) :
    containsSub (h.map Char.toUpper) n = ciContains h n := by
  induction h with
  | nil =>
    have h0 := startsWithL_map_toUpper n [] hn
    show (startsWithL n (([] : List Char).map Char.toUpper) || false) =
      (ciStartsWith n [] || false)
    rw [h0]
  | cons b h ih =>
    have h1 := startsWithL_map_toUpper n (b :: h) hn
    show (startsWithL n ((b :: h).map Char.toUpper) ||
        containsSub (h.map Char.toUpper) n) =
      (ciStartsWith n (b :: h) || ciContains h n)
    rw [h1, ih]

theorem approved_chars_upper : ∀ c ∈ ("APPROVED".toList), c.toUpper = c := by
  decide

/-- C1: for every review text, the approval check signals approval iff the
case-insensitive substring "APPROVED" occurs within the text's first 100
characters (so a text whose only occurrence starts after the first 100
characters is not approved), and the empty text is not approved. -/
theorem c1_approved_iff_ci_first100 :
    (∀ s : List Char, is_approved s = approvedSpec s) ∧
    is_approved [] = false := by
  refine ⟨fun s => ?_, rfl⟩
  unfold is_approved approvedSpec
  rcases s with _ | ⟨c, t⟩
  · decide
  · rw [if_neg (by simp)]
    exact containsSub_map_toUpper ((c :: t).take 100) _ approved_chars_upper

theorem takeWhile_mem_sat {α : Type} (p : α → Bool) :
    ∀ (l : List α) (x : α), x ∈ l.takeWhile p → p x = true := by
  intro l
  induction l with
  | nil => intro x hx; simp [List.takeWhile] at hx
  | cons a t ih =>
    intro x hx
    rw [List.takeWhile_cons] at hx
    by_cases hpa : p a
    · rw [if_pos hpa] at hx
      rcases List.mem_cons.mp hx with h | h
      · subst h; exact hpa
      · exact ih x h
    · rw [if_neg hpa] at hx
      cases hx

theorem dropWhile_head_sat {α : Type} (p : α → Bool) :
    ∀ (l : List α) (x : α), (l.dropWhile p).head? = some x → p x = false := by
  intro l
  induction l with
  | nil => intro x hx; cases hx
  | cons a t ih =>
    intro x hx
    rw [List.dropWhile_cons] at hx
    by_cases hpa : p a
    · rw [if_pos hpa] at hx
      exact ih x hx
    · rw [if_neg hpa] at hx
      simp only [List.head?_cons, Option.some.injEq] at hx
      subst hx
      exact Bool.eq_false_iff.mpr hpa

/-- C7: `consecutive_failures` equals the length of the maximal all-failing
suffix of the record sequence (witnessed by the decomposition with a
passing record, if any, just before the suffix), `should_escalate` is the
threshold test against it with default threshold 3, and the claimed
examples evaluate as stated. -/
theorem c7_consecutive_failures_spec :
    (∀ records : List IterationRecord, ∃ pre suf,
        records = pre ++ suf ∧
        consecutive_failures records = suf.length ∧
        (∀ r ∈ suf, r.test_passed = false) ∧
        (∀ r, pre.getLast? = some r → r.test_passed = true)) ∧
    (∀ (records : List IterationRecord) (m : Nat),
        should_escalate records m = true ↔ m ≤ consecutive_failures records) ∧
    defaultMaxFailures = 3 ∧
    consecutive_failures
      [⟨1, [], true⟩, ⟨2, [], false⟩, ⟨3, [], false⟩, ⟨4, [], false⟩] = 3 ∧
    consecutive_failures [⟨1, [], false⟩, ⟨2, [], true⟩, ⟨3, [], false⟩] = 1 ∧
    consecutive_failures [⟨1, [], true⟩, ⟨2, [], true⟩] = 0 ∧
    consecutive_failures ([] : List IterationRecord) = 0 := by
  refine ⟨?_, ?_, rfl, rfl, rfl, rfl, rfl⟩
  · intro records
    refine ⟨(records.reverse.dropWhile (fun r => !r.test_passed)).reverse,
      (records.reverse.takeWhile (fun r => !r.test_passed)).reverse,
      ?_, ?_, ?_, ?_⟩
    · conv_lhs => rw [← records.reverse_reverse,
        ← List.takeWhile_append_dropWhile
          (p := fun r => !r.test_passed) (l := records.reverse)]
      rw [List.reverse_append]
    · unfold consecutive_failures
      rw [List.length_reverse]
    · intro r hr
      have hmem := List.mem_reverse.mp hr
      have := takeWhile_mem_sat (fun r => !r.test_passed) _ r hmem
      simpa using this
    · intro r hr
      rw [List.getLast?_reverse] at hr
      have := dropWhile_head_sat (fun r => !r.test_passed) _ r hr
      simpa using this
  · intro records m
    simp [should_escalate]

/-- Witness for C7: four records ending in three failures escalate at the
default threshold. -/
theorem c7_witness :
    should_escalate
      [⟨1, [], true⟩, ⟨2, [], false⟩, ⟨3, [], false⟩, ⟨4, [], false⟩]
      defaultMaxFailures = true :=
  (c7_consecutive_failures_spec.2.1 _ defaultMaxFailures).mpr (by decide)

theorem escalateCase (available : List String) (current : String)
    (cands : List String)
    (hred : tryEscalate available current =
      match cands.find? (fun t => available.contains t) with
      | some t => (t, true)
      | none => (current, false))
    (hlt : ∀ t ∈ cands, tierIdx current < tierIdx t)
    (hdrop : ESCALATION_TIERS.drop (tierIdx current + 1) = cands) :
    ((tryEscalate available current).2 = true →
      tierIdx current < tierIdx (tryEscalate available current).1) ∧
    ((tryEscalate available current).2 = false →
      (tryEscalate available current).1 = current) ∧
    ((∀ t ∈ ESCALATION_TIERS.drop (tierIdx current + 1), t ∉ available) →
      tryEscalate available current = (current, false)) := by
  rcases hfind : cands.find? (fun t => available.contains t) with _ | t
  · have hres : tryEscalate available current = (current, false) := by
      rw [hred, hfind]
    refine ⟨?_, fun _ => by rw [hres], fun _ => hres⟩
    intro habs
    rw [hres] at habs
    simp at habs
  · have hres : tryEscalate available current = (t, true) := by
      rw [hred, hfind]
    have htmem : t ∈ cands := List.mem_of_find?_eq_some hfind
    have htav : available.contains t = true := by
      have := List.find?_some hfind
      simpa using this
    refine ⟨fun _ => ?_, fun hfalse => ?_, fun hnone => ?_⟩
    · rw [hres]
      exact hlt t htmem
    · rw [hres] at hfalse
      simp at hfalse
    · exfalso
      refine hnone t ?_ ?_
      · rw [hdrop]; exact htmem
      · simpa using htav

/-- C6: escalation is monotonic — for a current agent in the tier list,
an escalation step always selects an agent strictly later in the tier
list, and when no later tier member is available, escalation is a no-op
leaving the current agent unchanged. -/
theorem c6_escalation_monotonic :
    ∀ (available : List String) (current : String),
      current ∈ ESCALATION_TIERS →
      ((tryEscalate available current).2 = true →
        tierIdx current < tierIdx (tryEscalate available current).1) ∧
      ((tryEscalate available current).2 = false →
        (tryEscalate available current).1 = current) ∧
      ((∀ t ∈ ESCALATION_TIERS.drop (tierIdx current + 1), t ∉ available) →
        tryEscalate available current = (current, false)) := by
  intro available current hmem
  have hcases : current = "claude-haiku" ∨ current = "antigravity-flash" ∨
      current = "gemini" ∨ current = "claude-sonnet" ∨
      current = "antigravity-pro" ∨ current = "claude-opus" := by
    simpa [ESCALATION_TIERS] using hmem
  rcases hcases with h | h | h | h | h | h <;> subst h
  · exact escalateCase available _
      ["antigravity-flash", "gemini", "claude-sonnet", "antigravity-pro",
       "claude-opus"] rfl (by decide) (by decide)
  · exact escalateCase available _
      ["gemini", "claude-sonnet", "antigravity-pro", "claude-opus"]
      rfl (by decide) (by decide)
  · exact escalateCase available _
      ["claude-sonnet", "antigravity-pro", "claude-opus"]
      rfl (by decide) (by decide)
  · exact escalateCase available _
      ["antigravity-pro", "claude-opus"] rfl (by decide) (by decide)
  · exact escalateCase available _ ["claude-opus"] rfl (by decide) (by decide)
  · exact escalateCase available _ [] rfl (by decide) (by decide)

/-- Witness for C6: from "gemini" with only "claude-opus" available, the
selected agent sits strictly later in the tier list. -/
theorem c6_witness :
    tierIdx "gemini" < tierIdx (tryEscalate ["claude-opus"] "gemini").1 :=
  (c6_escalation_monotonic ["claude-opus"] "gemini" (by decide)).1 (by decide)

/-- C5 counterexample: with exactly one recorded step, which passed, and a
currently failing step — the claimed regression signal — the code does
not roll back (`len(self.steps) < 2` guard), refuting the claim as
stated. -/
theorem c5_counterexample :
    should_rollback [⟨true, false⟩] ⟨false, false⟩ = false ∧
    (⟨true, false⟩ : BuildStepRec).test_success = true ∧
    (⟨false, false⟩ : BuildStepRec).test_success = false :=
  ⟨rfl, rfl, rfl⟩

/-- C5 amended: rollback fires exactly when at least two prior iterations
are recorded, the immediately preceding one passed, and the current one
fails; it never fires when the preceding iteration failed; and the step
is marked `rolled_back` exactly when verification failed and the trigger
holds. -/
theorem c5_amended :
    ∀ (steps : List BuildStepRec) (current : BuildStepRec),
      (should_rollback steps current = true ↔
        (2 ≤ steps.length ∧
          (∃ prev, steps.getLast? = some prev ∧ prev.test_success = true) ∧
          current.test_success = false)) ∧
      (∀ prev, steps.getLast? = some prev → prev.test_success = false →
        should_rollback steps current = false) ∧
      (current.rolled_back = false →
        ((markRollback steps current).rolled_back = true ↔
          (current.test_success = false ∧
            should_rollback steps current = true))) := by
  intro steps current
  refine ⟨?_, ?_, ?_⟩
  · unfold should_rollback
    by_cases hlen : steps.length < 2
    · rw [if_pos hlen]
      constructor
      · intro h; simp at h
      · rintro ⟨h2, -, -⟩; omega
    · rw [if_neg hlen]
      have hne : steps ≠ [] := by
        intro h; subst h; simp at hlen
      rcases hlast : steps.getLast? with _ | prev
      · exact absurd (List.getLast?_eq_none_iff.mp hlast) hne
      · constructor
        · intro h
          simp only [Bool.and_eq_true, Bool.not_eq_true'] at h
          exact ⟨by omega, ⟨prev, rfl, h.1⟩, h.2⟩
        · rintro ⟨-, ⟨prev2, hl2, hp2⟩, hc⟩
          injection hl2 with e
          subst e
          simp [hp2, hc]
  · intro prev hlast hfail
    unfold should_rollback
    by_cases hlen : steps.length < 2
    · rw [if_pos hlen]
    · rw [if_neg hlen, hlast]
      simp [hfail]
  · intro hrb
    unfold markRollback
    by_cases hts : current.test_success
    · rw [if_pos hts]
      simp [hrb, hts]
    · rw [if_neg hts]
      by_cases hsr : should_rollback steps current
      · rw [if_pos hsr]
        simp [hsr, Bool.eq_false_iff.mpr hts]
      · rw [if_neg hsr]
        simp [hrb, Bool.eq_false_iff.mpr hsr]

/-- Witness for C5 amended: two recorded steps, the latest passing, and a
failing current step trigger rollback. -/
theorem c5_witness :
    should_rollback [⟨false, false⟩, ⟨true, false⟩] ⟨false, false⟩ = true :=
  (c5_amended [⟨false, false⟩, ⟨true, false⟩] ⟨false, false⟩).1.mpr
    ⟨by decide, ⟨⟨true, false⟩, rfl, rfl⟩, rfl⟩

/-- C8: classification follows the fixed priority order syntax,
dependency, configuration, logic, runtime, else UNKNOWN at MEDIUM
severity, first match winning; in particular a text with a dependency
marker and a runtime marker (and no higher-priority syntax marker) is
classified DEPENDENCY, not RUNTIME. -/
theorem c8_classifier_priority :
    (∀ s : List Char, classify s = classifyFirstMatch s) ∧
    (∀ s : List Char,
      matchesAny s DEPENDENCY_PATTERNS = true →
      matchesAny s RUNTIME_PATTERNS = true →
      matchesAny s SYNTAX_PATTERNS = false →
      (classify s).category = ErrorCategory.DEPENDENCY ∧
        (classify s).category ≠ ErrorCategory.RUNTIME) ∧
    (∀ s : List Char,
      matchesAny s SYNTAX_PATTERNS = false →
      matchesAny s DEPENDENCY_PATTERNS = false →
      matchesAny s CONFIG_PATTERNS = false →
      matchesAny s LOGIC_PATTERNS = false →
      matchesAny s RUNTIME_PATTERNS = false →
      classify s = ⟨ErrorCategory.UNKNOWN, ErrorSeverity.MEDIUM⟩) := by
  refine ⟨?_, ?_, ?_⟩
  · intro s
    by_cases h1 : matchesAny s SYNTAX_PATTERNS <;>
    by_cases h2 : matchesAny s DEPENDENCY_PATTERNS <;>
    by_cases h3 : matchesAny s CONFIG_PATTERNS <;>
    by_cases h4 : matchesAny s LOGIC_PATTERNS <;>
    by_cases h5 : matchesAny s RUNTIME_PATTERNS <;>
    simp [classify, classifyFirstMatch, priorityTable, List.find?,
      h1, h2, h3, h4, h5]
  · intro s h2 h5 h1
    refine ⟨by simp [classify, h1, h2], ?_⟩
    simp [classify, h1, h2]
  · intro s h1 h2 h3 h4 h5
    simp [classify, h1, h2, h3, h4, h5]

/-- Witness for C8: a text with both a dependency-missing marker and a
runtime-exception marker classifies as DEPENDENCY, not RUNTIME. -/
theorem c8_witness :
    (classify ("No module named flask\nTypeError: boom".toList)).category =
        ErrorCategory.DEPENDENCY ∧
      (classify ("No module named flask\nTypeError: boom".toList)).category ≠
        ErrorCategory.RUNTIME :=
  c8_classifier_priority.2.1 _ (by decide) (by decide) (by decide)

theorem writeFiles_eq_filter :
    ∀ ms : List (List Char × List Char),
      writeFiles ms =
        (ms.map (fun pc =>
          (pyStrip pc.1, pyRStripChar pc.2 '\n' ++ ['\n']))).filter
          (fun pc => safePath pc.1) := by
  intro ms
  induction ms with
  | nil => rfl
  | cons pc rest ih =>
    rcases pc with ⟨fp, content⟩
    simp only [writeFiles, List.map_cons, List.filter_cons, ih]
    split_ifs <;> simp_all [safePath]

/-- C2: the extraction write loop writes only safe paths — whatever
(path, content) blocks any of the three delimiter strategies captured,
every written file's path is free of `..`, does not start with `/`, and
has a path separator or an extension dot, so unsafe blocks and bare
tokens contribute zero written files. -/
theorem c2_extraction_path_safety :
    ∀ ms : List (List Char × List Char),
      writeFiles ms =
        (ms.map (fun pc =>
          (pyStrip pc.1, pyRStripChar pc.2 '\n' ++ ['\n']))).filter
          (fun pc => safePath pc.1) ∧
      ∀ pc ∈ writeFiles ms,
        containsSub pc.1 ("..".toList) = false ∧
        startsWithL ("/".toList) pc.1 = false ∧
        (pc.1.contains '/' = true ∨ pc.1.contains '.' = true) := by
  intro ms
  refine ⟨writeFiles_eq_filter ms, ?_⟩
  intro pc hpc
  rw [writeFiles_eq_filter ms] at hpc
  have hs := List.of_mem_filter hpc
  simp only [safePath, Bool.and_eq_true, Bool.not_eq_true',
    Bool.or_eq_true] at hs
  exact ⟨hs.1.1, hs.1.2, hs.2⟩

/-- Witness for C2: a block whose stripped path is `src/app.py` is
written, and its path satisfies all three safety facts. -/
theorem c2_witness :
    containsSub ("src/app.py".toList) ("..".toList) = false ∧
    startsWithL ("/".toList) ("src/app.py".toList) = false ∧
    (("src/app.py".toList).contains '/' = true ∨
      ("src/app.py".toList).contains '.' = true) :=
  (c2_extraction_path_safety [(" src/app.py ".toList, "print(1)".toList)]).2
    ("src/app.py".toList, "print(1)\n".toList) (by decide)

theorem duoLoop_shape (env : DuoEnv) :
    ∀ (fuel iter : Nat) (acc : List DuoRoundM),
      ∃ t, (duoLoop env fuel iter acc).1.map (fun r => r.phase) =
          acc.map (fun r => r.phase) ++ t ∧
        LoopShape fuel t := by
  intro fuel
  induction fuel with
  | zero =>
    intro iter acc
    exact ⟨[], by simp [duoLoop], LoopShape.exhausted⟩
  | succ n ih =>
    intro iter acc
    cases happ : is_approved (env.reviewOut iter) with
    | true =>
      refine ⟨[Phase.REVIEW], ?_, LoopShape.approvedStop n⟩
      simp [duoLoop, happ]
    | false =>
      have hunf : duoLoop env (n + 1) iter acc =
          duoLoop env n (iter + 1)
            (acc ++
              [⟨acc.length + 1, Phase.REVIEW, env.reviewOk iter,
                env.reviewOut iter⟩,
               ⟨acc.length + 2, Phase.FIX, env.fixOk iter, env.fixOut iter⟩,
               ⟨acc.length + 3, Phase.VERIFY, env.verifyOk iter,
                env.verifyOut iter⟩]) := by
        simp [duoLoop, happ]
      obtain ⟨t, ht1, ht2⟩ := ih (iter + 1)
        (acc ++
          [⟨acc.length + 1, Phase.REVIEW, env.reviewOk iter,
            env.reviewOut iter⟩,
           ⟨acc.length + 2, Phase.FIX, env.fixOk iter, env.fixOut iter⟩,
           ⟨acc.length + 3, Phase.VERIFY, env.verifyOk iter,
            env.verifyOut iter⟩])
      refine ⟨Phase.REVIEW :: Phase.FIX :: Phase.VERIFY :: t, ?_,
        LoopShape.cycle n t ht2⟩
      rw [hunf, ht1]
      simp

/-- C3: for every run whose PLAN and CODE dispatches succeed, the recorded
phase sequence is PLAN, CODE, VERIFY followed by a loop suffix of at most
`max_rounds` REVIEW rounds, each unapproved one followed by FIX and
VERIFY; with `max_rounds = 1` and the first review approved the run ends
approved with exactly the 4 phases PLAN, CODE, VERIFY, REVIEW; with
`max_rounds = 2` and no review approved it performs exactly two
REVIEW/FIX/VERIFY cycles and ends unapproved. -/
theorem c3_round_structure :
    ∀ (env : DuoEnv) (max_rounds : Nat),
      env.planOk = true → env.codeOk = true →
      (∃ t, phasesOf (duoRun env max_rounds) =
          [Phase.PLAN, Phase.CODE, Phase.VERIFY] ++ t ∧
        LoopShape max_rounds t) ∧
      (is_approved (env.reviewOut 1) = true →
        (duoRun env 1).approved = true ∧
        phasesOf (duoRun env 1) =
          [Phase.PLAN, Phase.CODE, Phase.VERIFY, Phase.REVIEW] ∧
        (duoRun env 1).total_rounds = 4) ∧
      ((∀ i, is_approved (env.reviewOut i) = false) →
        (duoRun env 2).approved = false ∧
        phasesOf (duoRun env 2) =
          [Phase.PLAN, Phase.CODE, Phase.VERIFY, Phase.REVIEW, Phase.FIX,
           Phase.VERIFY, Phase.REVIEW, Phase.FIX, Phase.VERIFY] ∧
        (duoRun env 2).total_rounds = 9) := by
  intro env m hp hc
  refine ⟨?_, ?_, ?_⟩
  · obtain ⟨t, ht1, ht2⟩ := duoLoop_shape env m 1
      [⟨1, Phase.PLAN, true, env.planOut⟩,
       ⟨2, Phase.CODE, true, env.codeOut⟩,
       ⟨3, Phase.VERIFY, env.verifyOk 0, env.verifyOut 0⟩]
    refine ⟨t, ?_, ht2⟩
    simp only [phasesOf, duoRun, hp, hc, Bool.not_true, Bool.false_eq_true,
      if_false]
    rw [ht1]
    rfl
  · intro happ
    refine ⟨?_, ?_, ?_⟩ <;>
      simp [duoRun, duoLoop, hp, hc, happ, phasesOf]
  · intro hna
    refine ⟨?_, ?_, ?_⟩ <;>
      simp [duoRun, duoLoop, hp, hc, hna, phasesOf]

/-- Witness for C3: an always-approving reviewer with `max_rounds = 1`
ends the run approved after exactly the 4 phases PLAN, CODE, VERIFY,
REVIEW. -/
theorem c3_witness :
    (duoRun envApproved 1).approved = true ∧
    phasesOf (duoRun envApproved 1) =
      [Phase.PLAN, Phase.CODE, Phase.VERIFY, Phase.REVIEW] ∧
    (duoRun envApproved 1).total_rounds = 4 :=
  (c3_round_structure envApproved 1 rfl rfl).2.1 (by decide)

/-- C10: when PLAN fails (or PLAN succeeds and CODE fails), `run` returns
immediately with `approved = False`, `total_rounds` still 0 and
`files_created` empty although the rounds list is non-empty;
`total_rounds` and `files_created` are populated only at normal loop
exit. -/
theorem c10_early_return_defaults :
    ∀ (env : DuoEnv) (max_rounds : Nat),
      (env.planOk = false →
        duoRun env max_rounds =
          { rounds := [⟨1, Phase.PLAN, false, env.planOut⟩],
            approved := false, total_rounds := 0, files_created := [] } ∧
        (duoRun env max_rounds).rounds ≠ []) ∧
      (env.planOk = true → env.codeOk = false →
        duoRun env max_rounds =
          { rounds := [⟨1, Phase.PLAN, true, env.planOut⟩,
                       ⟨2, Phase.CODE, false, env.codeOut⟩],
            approved := false, total_rounds := 0, files_created := [] } ∧
        (duoRun env max_rounds).rounds ≠ []) ∧
      (env.planOk = true → env.codeOk = true →
        (duoRun env max_rounds).total_rounds =
          (duoRun env max_rounds).rounds.length ∧
        (duoRun env max_rounds).files_created = env.projectFiles) := by
  intro env m
  refine ⟨fun hp => ⟨?_, ?_⟩, fun hp hc => ⟨?_, ?_⟩, fun hp hc => ⟨?_, ?_⟩⟩
  · simp [duoRun, hp]
  · simp [duoRun, hp]
  · simp [duoRun, hp, hc]
  · simp [duoRun, hp, hc]
  · simp [duoRun, hp, hc]
  · simp [duoRun, hp, hc]

/-- Witness for C10: a failed PLAN dispatch yields the partially-filled
result with one recorded round but `total_rounds = 0` and no files. -/
theorem c10_witness :
    duoRun envPlanFail 3 =
      { rounds := [⟨1, Phase.PLAN, false, envPlanFail.planOut⟩],
        approved := false, total_rounds := 0, files_created := [] } :=
  ((c10_early_return_defaults envPlanFail 3).1 rfl).1

theorem cmdErrorEntry_none_iff (cmd : List Char) (o : CmdOutcome) :
    cmdErrorEntry cmd o = none ↔ exitsZero o = true := by
  cases o with
  | completed code stdout stderr =>
    by_cases h : (code == 0) = true <;> simp [cmdErrorEntry, exitsZero, h]
  | timedOut => simp [cmdErrorEntry, exitsZero]
  | execError msg => simp [cmdErrorEntry, exitsZero]

theorem validationEntries_nil_of_passed (v : ValidationResult)
    (h : vPassed v = true) : validationEntries v = [] := by
  simp [validationEntries, h]

theorem validationEntries_ne_nil (v : ValidationResult)
    (h : vPassed v = false) : validationEntries v ≠ [] := by
  have hany : v.issues.any (fun i => i.severity == VSeverity.CRITICAL) =
      true := by
    revert h
    unfold vPassed
    cases v.issues.any (fun i => i.severity == VSeverity.CRITICAL) <;> simp
  obtain ⟨i, hi, hcrit⟩ := List.any_eq_true.mp hany
  intro hnil
  have hv_if : validationEntries v =
      v.issues.filterMap (fun i =>
        if i.severity == VSeverity.CRITICAL then
          some ("VALIDATION: ".toList ++ i.message ++
            (match i.file with
             | some f => " (".toList ++ f ++ [')']
             | none => []))
        else none) := by
    simp [validationEntries, h]
  rw [hv_if] at hnil
  have hmem : ("VALIDATION: ".toList ++ i.message ++
      (match i.file with
       | some f => " (".toList ++ f ++ [')']
       | none => [])) ∈
      v.issues.filterMap (fun i =>
        if i.severity == VSeverity.CRITICAL then
          some ("VALIDATION: ".toList ++ i.message ++
            (match i.file with
             | some f => " (".toList ++ f ++ [')']
             | none => []))
        else none) :=
    List.mem_filterMap.mpr ⟨i, hi, by rw [if_pos hcrit]⟩
  rw [hnil] at hmem
  exact absurd hmem (List.not_mem_nil _)

/-- C4 counterexample: against an existing but empty working directory
with no detected verification commands, every executed command vacuously
exits zero, yet `_verify` reports overall success `False` because the
validation gate's CRITICAL finding is merged into the same error list —
refuting the claimed "success iff every executed command exits zero". -/
theorem c4_counterexample :
    ¬(((verifyRun envNoCmds).success = true) ↔
      (∀ c ∈ envNoCmds.commands, exitsZero (envNoCmds.run c) = true)) := by
  intro hiff
  have h1 : ∀ c ∈ envNoCmds.commands, exitsZero (envNoCmds.run c) = true := by
    intro c hc
    simp [envNoCmds] at hc
  have h2 := hiff.mpr h1
  have h3 : (verifyRun envNoCmds).success = false := by decide
  rw [h2] at h3
  cases h3

/-- C4 amended: `_verify` reports overall success true iff every executed
command exits with code zero and the structural validation pass yields no
CRITICAL finding; the error blob lists, for each failing command, its
command line, exit code and captured output; and when no verification
commands are detected, the phase reports the informational message (and
still succeeds when validation passes) rather than failing the run. -/
theorem c4_amended :
    ∀ env : VerifyEnv,
      ((verifyRun env).success = true ↔
        ((∀ c ∈ env.commands, exitsZero (env.run c) = true) ∧
          vPassed (validate_project env.fs) = true)) ∧
      (∀ c ∈ env.commands, ∀ (code : Int) (stdout stderr : List Char),
        env.run c = CmdOutcome.completed code stdout stderr →
        (code == 0) = false →
        ("$ ".toList ++ c ++ "\nExit code: ".toList ++
          (toString code).toList ++ '\n' :: combinedOutput stdout stderr) ∈
            (verifyRun env).errors ∧
        (verifyRun env).error_text =
          joinSep ("\n\n".toList) ((verifyRun env).errors)) ∧
      (env.commands = [] → noCommandsMsg ∈ (verifyRun env).output_parts) ∧
      (env.commands = [] → vPassed (validate_project env.fs) = true →
        (verifyRun env).success = true) := by
  intro env
  have hif : (if env.commands.isEmpty then ([] : List (List Char))
      else env.commands.filterMap (fun c => cmdErrorEntry c (env.run c))) =
      env.commands.filterMap (fun c => cmdErrorEntry c (env.run c)) := by
    cases env.commands <;> simp
  have herr : (verifyRun env).errors =
      env.commands.filterMap (fun c => cmdErrorEntry c (env.run c)) ++
        validationEntries (validate_project env.fs) := by
    simp only [verifyRun]
    rw [hif]
  have hsucc : (verifyRun env).success =
      (env.commands.filterMap (fun c => cmdErrorEntry c (env.run c)) ++
        validationEntries (validate_project env.fs)).isEmpty := by
    simp only [verifyRun]
    rw [hif]
  have htext : (verifyRun env).error_text =
      (if (env.commands.filterMap (fun c => cmdErrorEntry c (env.run c)) ++
          validationEntries (validate_project env.fs)).isEmpty then []
        else joinSep ("\n\n".toList)
          (env.commands.filterMap (fun c => cmdErrorEntry c (env.run c)) ++
            validationEntries (validate_project env.fs))) := by
    simp only [verifyRun]
    rw [hif]
  refine ⟨?_, ?_, ?_, ?_⟩
  · rw [hsucc, List.isEmpty_iff, List.append_eq_nil]
    constructor
    · rintro ⟨h1, h2⟩
      refine ⟨?_, ?_⟩
      · intro c hcmem
        exact (cmdErrorEntry_none_iff c (env.run c)).mp
          (List.filterMap_eq_nil_iff.mp h1 c hcmem)
      · by_contra habs
        exact validationEntries_ne_nil _ (Bool.eq_false_iff.mpr habs) h2
    · rintro ⟨h1, h2⟩
      exact ⟨List.filterMap_eq_nil_iff.mpr
          (fun c hc => (cmdErrorEntry_none_iff _ _).mpr (h1 c hc)),
        validationEntries_nil_of_passed _ h2⟩
  · intro c hc code stdout stderr hrunc hcode
    have hentry : cmdErrorEntry c (env.run c) =
        some ("$ ".toList ++ c ++ "\nExit code: ".toList ++
          (toString code).toList ++ '\n' :: combinedOutput stdout stderr) := by
      rw [hrunc]
      simp [cmdErrorEntry, hcode]
    have hmem : ("$ ".toList ++ c ++ "\nExit code: ".toList ++
        (toString code).toList ++ '\n' :: combinedOutput stdout stderr) ∈
        (verifyRun env).errors := by
      rw [herr]
      exact List.mem_append_left _ (List.mem_filterMap.mpr ⟨c, hc, hentry⟩)
    refine ⟨hmem, ?_⟩
    rw [htext, if_neg, ← herr]
    rw [herr] at hmem
    intro habs
    rw [List.isEmpty_iff.mp habs] at hmem
    exact absurd hmem (List.not_mem_nil _)
  · intro hcmd
    simp [verifyRun, hcmd]
  · intro hcmd hv
    rw [hsucc, hcmd]
    simp [validationEntries_nil_of_passed _ hv]

/-- Witness for C4 amended: one command exiting zero against a
structurally complete project yields overall success. -/
theorem c4_witness :
    (verifyRun envGood).success = true :=
  (c4_amended envGood).1.mpr ⟨by decide, by decide⟩

/-- C9: saving then loading the resume state returns a state object with
identical objective, last_phase, planner, coder and round count; a
stored version other than 1 yields `None`; a corrupted (unparseable)
state file yields `None` rather than raising; a missing file yields
`None`. -/
theorem c9_resume_roundtrip :
    (∀ (objective planner coder last_phase plan_output : String)
        (rounds : List JVal),
      ∃ fields,
        load_state (some (save_state objective planner coder last_phase
            plan_output rounds)) =
          Except.ok (some (JVal.jobj fields)) ∧
        jget fields "objective" = some (JVal.jstr objective) ∧
        jget fields "last_phase" = some (JVal.jstr last_phase) ∧
        jget fields "planner" = some (JVal.jstr planner) ∧
        jget fields "coder" = some (JVal.jstr coder) ∧
        ∃ rs, jget fields "rounds" = some (JVal.jarr rs) ∧
          rs.length = rounds.length) ∧
    (∀ fields, versionIsOne (jget fields "version") = false →
      load_state (some (JFile.parsed (JVal.jobj fields))) =
        Except.ok none) ∧
    load_state (some JFile.corrupt) = Except.ok none ∧
    load_state none = Except.ok none := by
  refine ⟨?_, ?_, rfl, rfl⟩
  · intro objective planner coder last_phase plan_output rounds
    exact ⟨_, rfl, rfl, rfl, rfl, rfl, rounds, rfl, rfl⟩
  · intro fields hv
    unfold load_state
    simp [hv]

/-- Witness for C9: a state file whose stored version is 2 loads as
`None`. -/
theorem c9_witness :
    load_state (some (JFile.parsed (JVal.jobj [("version", JVal.jnum 2)]))) =
      Except.ok none :=
  c9_resume_roundtrip.2.1 [("version", JVal.jnum 2)] rfl

end Forge
